import Mathlib

/-!
# DesiYatra call-negotiation engine — verification development

Shallow embedding of the bargainer subsystem of the DesiYatra repository:

* `agents/adk_agents/bargainer/atomic_tools.py` — session store helpers and the
  atomic tools `initiate_call`, `send_message`, `accept_deal`;
* `agents/adk_agents/bargainer/negotiation_brain.py` — the oracle wrapper
  `generate_negotiation_response`;
* `agents/adk_agents/bargainer/streaming_negotiator.py` — the streaming
  negotiation loop `run_streaming_negotiation`;
* `agents/adk_agents/bargainer/tools.py` — the orchestrator
  `negotiate_all_vendors` (semaphore-bounded fan-out and deal aggregation);
* `agents/main.py` — the `POST /twilio/gather/{call_id}` webhook handler.

Prices are modelled as rationals, the Firestore `active_calls` collection as an
association list from call id to a typed session record, and external
collaborators (Twilio, Sarvam STT/TTS, Gemini) as function parameters.
-/

namespace DesiYatra

/-! ## Session store (Firestore `active_calls`, modelled as an association list) -/

/-- A document store keyed by strings: the Firestore collection seen through
`_get_call_state` / `_save_call_state` / `_delete_call_state`. -/
abbrev StoreOf (α : Type) := List (String × α)

/-- `doc.get()` on a keyed collection: first binding for the key, if any. -/
def lookupDoc {α : Type} : StoreOf α → String → Option α
  | [], _ => none
  | p :: tl, k => if p.1 = k then some p.2 else lookupDoc tl k

/-- `document(k).delete()`: remove every binding for the key. -/
def deleteDoc {α : Type} : StoreOf α → String → StoreOf α
  | [], _ => []
  | p :: tl, k => if p.1 = k then deleteDoc tl k else p :: deleteDoc tl k

/-- `document(k).set(v)`: bind the key to the full record `v`. -/
def setDoc {α : Type} (s : StoreOf α) (k : String) (v : α) : StoreOf α :=
  (k, v) :: deleteDoc s k

/-! ## Data model -/

/-- A vendor entry as consumed by `initiate_call` / `accept_deal`:
`name`, `phone`, `category`, declared `gender`. -/
structure Vendor where
  name : String
  phone : String
  category : String
  gender : String
  deriving Repr, DecidableEq

/-- The `trip_context` dictionary. Fields are optional because the Python dict
may omit them; `requirements` defaults to the empty list. -/
structure TripContext where
  destination : Option String := none
  market_rate : Option ℚ := none
  budget_max : Option ℚ := none
  vendor_type : Option String := none
  party_size : Option ℕ := none
  agent_gender : Option String := none
  requirements : List String := []
  deriving Repr, DecidableEq

/-- One entry of the atomic-tools `history` list: either
`{"agent": message, "offer": offer}` or `{"vendor": message}`. -/
inductive Turn where
  | agent (message : String) (offer : Option ℚ)
  | vendor (message : String)
  deriving Repr, DecidableEq

/-- The per-call session document written by `initiate_call` and mutated by
`send_message` (the `active_calls/{call_id}` Firestore document). -/
structure CallState where
  vendor : Vendor
  trip_context : TripContext
  round : ℕ
  current_quote : Option ℚ
  history : List Turn
  status : String
  agent_gender : String
  deriving Repr, DecidableEq

/-- The `Deal` record returned by `accept_deal` — exactly these five fields. -/
structure Deal where
  vendor_name : String
  phone : String
  service_type : String
  negotiated_price : ℚ
  status : String
  deriving Repr, DecidableEq

/-! ## Atomic tools (`atomic_tools.py`) -/

/-- Agent gender is the opposite of the vendor's declared gender
(`"female" if vendor_gender == "male" else "male"`). -/
def oppositeGender (g : String) : String :=
  if g = "male" then "female" else "male"

/-- `call_id = f"call_{vendor['phone']}"`. -/
def callIdFor (vendor : Vendor) : String := "call_" ++ vendor.phone

/-- The fresh `call_state` dict built by `initiate_call` (simulation path,
`use_real_twilio=False`; the Twilio SID and greeting-audio fields stay null). -/
def initialCallState (vendor : Vendor) (tc : TripContext) : CallState :=
  { vendor := vendor
    trip_context := tc
    round := 0
    current_quote := none
    history := []
    status := "INITIATED"
    agent_gender := oppositeGender vendor.gender }

/-- Result dictionary of `initiate_call`. -/
structure InitResult where
  call_id : String
  vendor_name : String
  vendor_phone : String
  status : String
  deriving Repr, DecidableEq

/-- `initiate_call(vendor, trip_context)`: save the fresh session and return a
`CALL_INITIATED` summary. -/
def initiate_call (store : StoreOf CallState) (vendor : Vendor) (tc : TripContext) :
    InitResult × StoreOf CallState :=
  let cid := callIdFor vendor
  ({ call_id := cid
     vendor_name := vendor.name
     vendor_phone := vendor.phone
     status := "CALL_INITIATED" },
   setDoc store cid (initialCallState vendor tc))

/-- Decimal-free rendering of a rational price, used in the simulated vendor
messages (the exact text is irrelevant to every claim; it only has to be a
deterministic function of the quote). -/
def ratText (q : ℚ) : String :=
  toString q.num ++ (if q.den = 1 then "" else "/" ++ toString q.den)

/-- Result dictionary of `send_message`. -/
inductive SendResult where
  | ok (call_id : String) (vendor_response : String) (current_quote : ℚ) (round : ℕ)
  | err (message : String)
  deriving Repr, DecidableEq

/-- `send_message(call_id, message, offer)`: on a stored session, increment
`round`, append the agent turn, produce the simulated vendor reply
(first quote `4000.0`, thereafter `current_quote *= 0.92`), append the vendor
turn and save; on an unknown `call_id`, an error with the store untouched. -/
def send_message (store : StoreOf CallState) (call_id : String)
    (message : String) (offer : Option ℚ) : SendResult × StoreOf CallState :=
  match lookupDoc store call_id with
  | none => (.err "Invalid call_id or call expired", store)
  | some call =>
      let round1 := call.round + 1
      let hist1 := call.history ++ [Turn.agent message offer]
      let quote1 : ℚ :=
        match call.current_quote with
        | none => 4000
        | some q => q * (92 / 100)
      let vendorMsg : String :=
        match call.current_quote with
        | none => "Our rate is ₹" ++ ratText quote1
        | some _ => "Best I can do is ₹" ++ ratText quote1
      let call1 : CallState :=
        { call with
            round := round1
            current_quote := some quote1
            history := hist1 ++ [Turn.vendor vendorMsg] }
      (.ok call_id vendorMsg quote1 round1, setDoc store call_id call1)

/-- Result of `accept_deal`: a `Deal` record or an error dictionary. -/
inductive AcceptResult where
  | deal (d : Deal)
  | err (message : String)
  deriving Repr, DecidableEq

/-- `accept_deal(call_id, final_price)`: on a stored session, build the `Deal`
record from the vendor fields and the given price, delete the session, and
return it; on an unknown `call_id`, an error with the store untouched.
Note: the source performs no check of `current_quote` or any budget bound. -/
def accept_deal (store : StoreOf CallState) (call_id : String) (final_price : ℚ) :
    AcceptResult × StoreOf CallState :=
  match lookupDoc store call_id with
  | none => (.err "Invalid call_id", store)
  | some call =>
      (.deal
        { vendor_name := call.vendor.name
          phone := call.vendor.phone
          service_type := call.vendor.category
          negotiated_price := final_price
          status := "DEAL_SUCCESS" },
       deleteDoc store call_id)

/-! ## Negotiation brain (`negotiation_brain.py`) -/

/-- One entry of the streaming / webhook `history` list
(`{"role": ..., "content": ...}`). -/
structure ChatTurn where
  role : String
  content : String
  deriving Repr, DecidableEq

/-- The canned decline utterance returned when the Gemini call (or the field
validation) fails. -/
def CANNED_DECLINE : String :=
  "Thoda mehenga lag raha hai bhaiya, kuch kam kijiye na."

/-- `str.strip()`: drop leading and trailing whitespace. -/
def stripText (s : String) : String :=
  String.mk
    (((s.data.dropWhile Char.isWhitespace).reverse.dropWhile
        Char.isWhitespace).reverse)

/-- Python truthiness of an optional string (`not trip_context.get(field)`). -/
def truthyStr (o : Option String) : Bool :=
  match o with
  | none => false
  | some s => decide (s ≠ "")

/-- Python truthiness of an optional number. -/
def truthyNum (o : Option ℚ) : Bool :=
  match o with
  | none => false
  | some q => decide (q ≠ 0)

/-- Python truthiness of an optional natural. -/
def truthyNat (o : Option ℕ) : Bool :=
  match o with
  | none => false
  | some n => decide (n ≠ 0)

/-- The `missing_fields` computation over the five required `trip_context`
fields (`destination`, `market_rate`, `budget_max`, `vendor_type`,
`party_size`). -/
def requiredMissing (tc : TripContext) : List String :=
  (if truthyStr tc.destination then [] else ["destination"]) ++
  (if truthyNum tc.market_rate then [] else ["market_rate"]) ++
  (if truthyNum tc.budget_max then [] else ["budget_max"]) ++
  (if truthyStr tc.vendor_type then [] else ["vendor_type"]) ++
  (if truthyNat tc.party_size then [] else ["party_size"])

/-- `NegotiationBrain.generate_negotiation_response`.  The Gemini collaborator
is a parameter `modelCall`, indexed by attempt number so that the number of
attempts the source makes is part of the embedding; `.error` covers any raised
exception (network failure, missing API key, unavailable model).  The body is
one big `try`: a `ValueError` from field validation and a failed model call
both land in the `except` arm, which returns the canned decline utterance.
The source invokes the collaborator exactly once (attempt `0`). -/
def generate_negotiation_response (modelCall : ℕ → Except Unit String)
    (history : List ChatTurn) (tc : TripContext)
    (last_user_transcript : String) : String :=
  if requiredMissing tc ≠ [] then CANNED_DECLINE
  else
    match modelCall 0 with
    | Except.ok text => stripText text
    | Except.error _ => CANNED_DECLINE

/-- First successful attempt among `bound + 1` tries, starting at attempt `i`. -/
def retryAttempts : ℕ → (ℕ → Except Unit String) → ℕ → Option String
  | 0, f, i =>
      match f i with
      | Except.ok s => some (stripText s)
      | Except.error _ => none
  | b + 1, f, i =>
      match f i with
      | Except.ok s => some (stripText s)
      | Except.error _ => retryAttempts b f (i + 1)

/-- Modelled from the spec: "`TransientCollaboratorError` … retried up to a
small fixed bound with backoff; on exhaustion falls back to a canned
utterance".  No retry loop exists in the source `negotiation_brain.py`; this
definition follows the spec's words (with `bound` allowed retries and the
backoff delays abstracted away) so it can be compared against the source
embedding `generate_negotiation_response`. -/
def generate_with_retry (bound : ℕ) (modelCall : ℕ → Except Unit String)
    (history : List ChatTurn) (tc : TripContext)
    (last_user_transcript : String) : String :=
  if requiredMissing tc ≠ [] then CANNED_DECLINE
  else (retryAttempts bound modelCall 0).getD CANNED_DECLINE

/-! ## Streaming negotiation loop (`streaming_negotiator.py`) -/

/-- `max_rounds = 6`. -/
def max_rounds : ℕ := 6

/-- The `end_signals` list checked against the lowercased agent response. -/
def endSignals : List String :=
  ["धन्यवाद", "thank you", "थैंक यू",
   "फिर हम और कहीं देख लेते हैं",
   "बजट के बाहर है",
   "कन्फर्म करता हूँ", "डन", "done",
   "ठीक है भैया"]

/-- Whether the first character list starts the second. -/
def isPrefixChars : List Char → List Char → Bool
  | [], _ => true
  | _ :: _, [] => false
  | a :: xs, b :: ys => decide (a = b) && isPrefixChars xs ys

/-- Whether the first character list occurs inside the second
(Python `needle in haystack`). -/
def isInfixChars (needle : List Char) : List Char → Bool
  | [] => isPrefixChars needle []
  | b :: tl => isPrefixChars needle (b :: tl) || isInfixChars needle tl

/-- `agent_response.lower()`, characterwise. -/
def lowerChars (l : List Char) : List Char := l.map Char.toLower

/-- `any(signal in agent_response.lower() for signal in end_signals)`. -/
def containsSignal (response : String) : Bool :=
  endSignals.any (fun sig => isInfixChars sig.data (lowerChars response.data))

/-- In-memory and persisted state threaded through the streaming loop.
`round_num`, `history` are the local variables of `run_streaming_negotiation`;
`persistedRound` / `persistedHistory` record the last merge-write of the
`round` / `history` fields (none = this run has not written yet); `spoken` is
the sequence of `voice_stream.speak` calls, `oracleCalls` counts brain
invocations and `listens` counts `voice_stream.listen` calls. -/
structure LoopSt where
  round_num : ℕ
  history : List ChatTurn
  persistedRound : Option ℕ
  persistedHistory : List ChatTurn
  spoken : List String
  oracleCalls : ℕ
  listens : ℕ
  deriving Repr, DecidableEq

/-- Environment input for one loop iteration: the transcripts the two possible
`listen()` calls would return (`""` = no transcript, matching Python
falsiness), or an exception raised inside the round body. -/
inductive RoundEvent where
  | listens (first retry : String)
  | crash
  deriving Repr, DecidableEq

/-- Outcome of one loop iteration: continue, break out of the loop
(end signal detected), or an exception propagating to the handler. -/
inductive StepOut where
  | next (st : LoopSt)
  | ended (st : LoopSt)
  | crashed (st : LoopSt)
  deriving Repr, DecidableEq

/-- The state carried by any iteration outcome. -/
def StepOut.state : StepOut → LoopSt
  | .next st => st
  | .ended st => st
  | .crashed st => st

/-- One iteration of the `while round_num < max_rounds` body.  `round_num` is
incremented first.  The first `listen()` result is used if non-empty;
otherwise, after the extra wait, `listen()` is called exactly once more.  If
still empty the round is skipped (`continue`) with no history append, no brain
call, no write and nothing spoken.  Otherwise the vendor turn is appended, the
brain produces the reply, the agent turn is appended, `history`/`round` are
merge-written, the reply is spoken, and the loop ends if the lowercased reply
contains an end signal.  A crash models an exception in the round body
(sleep/listen/speak/store); it aborts the loop into the handler. -/
def loopIter (brain : List ChatTurn → String → String) (ev : RoundEvent)
    (st : LoopSt) : StepOut :=
  match ev with
  | .crash => .crashed { st with round_num := st.round_num + 1 }
  | .listens first retry =>
      let rn := st.round_num + 1
      let transcript := if first = "" then retry else first
      let listensUsed := if first = "" then 2 else 1
      if transcript = "" then
        .next { st with round_num := rn, listens := st.listens + listensUsed }
      else
        let h1 := st.history ++ [{ role := "user", content := transcript }]
        let response := brain h1 transcript
        let h2 := h1 ++ [{ role := "assistant", content := response }]
        let st2 : LoopSt :=
          { round_num := rn
            history := h2
            persistedRound := some rn
            persistedHistory := h2
            spoken := st.spoken ++ [response]
            oracleCalls := st.oracleCalls + 1
            listens := st.listens + listensUsed }
        if containsSignal response then .ended st2 else .next st2

/-- The `while round_num < max_rounds` loop, with `fuel = max_rounds −
round_num` remaining iterations.  `events` supplies the environment input for
each round number.  The Bool records whether the loop was left by an
exception. -/
def loopGo (brain : List ChatTurn → String → String)
    (events : ℕ → RoundEvent) : ℕ → LoopSt → LoopSt × Bool
  | 0, st => (st, false)
  | fuel + 1, st =>
      match loopIter brain (events (st.round_num + 1)) st with
      | .next st1 => loopGo brain events fuel st1
      | .ended st1 => (st1, false)
      | .crashed st1 => (st1, true)

/-- Observable outcome of `run_streaming_negotiation`: the `finally` block's
final merge-write (`status`, `final_round`), whether hangup was requested via
`_hangup_call`, whether the session document was deleted, and the final loop
state. -/
structure RunResult where
  finalStatus : String
  final_round : ℕ
  hangupRequested : Bool
  sessionDeleted : Bool
  finalState : LoopSt
  deriving Repr, DecidableEq

/-- Initial loop state: `round_num = 0`, `history` read from the stored
document, nothing yet written, spoken or listened by this run. -/
def initLoopSt (initHistory : List ChatTurn) : LoopSt :=
  { round_num := 0
    history := initHistory
    persistedRound := none
    persistedHistory := initHistory
    spoken := []
    oracleCalls := 0
    listens := 0 }

/-- `run_streaming_negotiation(call_id, voice_stream)`: run the loop (normal
break, `max_rounds` exhaustion, or exception caught by the `except` arm), then
the `finally` block always requests hangup and merge-writes
`{"status": "COMPLETED", "final_round": round_num}` without deleting the
session document. -/
def run_streaming_negotiation (brain : List ChatTurn → String → String)
    (events : ℕ → RoundEvent) (initHistory : List ChatTurn) : RunResult :=
  let r := loopGo brain events max_rounds (initLoopSt initHistory)
  { finalStatus := "COMPLETED"
    final_round := r.1.round_num
    hangupRequested := true
    sessionDeleted := false
    finalState := r.1 }

/-! ## Gather webhook (`main.py`, `twilio_gather_callback`) -/

/-- The `active_calls/{call_id}` document as read by the gather webhook:
`stage` (absent means `"INITIATED"`), `trip_context`, webhook-shaped `history`
and the vendor entry (drives TTS gender, irrelevant to control flow). -/
structure GatherDoc where
  stage : Option String
  trip_context : TripContext
  history : List ChatTurn
  vendor : Option Vendor
  deriving Repr, DecidableEq

/-- The webhook response: the spoken utterance (played audio or TTS fallback)
followed by another gather-speech instruction. -/
structure GatherResponse where
  utterance : String
  gatherSpeech : Bool
  deriving Repr, DecidableEq

/-- `POST /twilio/gather/{call_id}`.  The handler reads the form field
`SpeechResult` as the vendor transcript (`form_data.get("SpeechResult")`), runs
the stage machine on `call_state.get("stage", "INITIATED")` and answers with an
utterance plus a further gather instruction:

* `INITIATED`: fixed qualification message, stage set to `NEGOTIATION`;
* `NEGOTIATION`: the brain generates the reply from the stored history and the
  transcript, then exactly the user turn and the agent turn are appended and
  merge-written (stage untouched);
* any other stage: closing utterance, document untouched.

`brain` abstracts `NegotiationBrain.generate_negotiation_response` as invoked
here; an absent `SpeechResult` reaches the stored user turn as the empty
content. -/
def twilio_gather_callback
    (brain : List ChatTurn → TripContext → Option String → String)
    (doc : GatherDoc) (form : StoreOf String) :
    GatherResponse × GatherDoc :=
  let transcript := lookupDoc form "SpeechResult"
  let stage := doc.stage.getD "INITIATED"
  let destination := doc.trip_context.destination.getD "Manali"
  if stage = "INITIATED" then
    ({ utterance := "Hum " ++ destination ++
         " ke liye taxi dekh rahe hain. 4 log hain, 3 din ke liye. Kya rate chal raha hai?"
       gatherSpeech := true },
     { doc with stage := some "NEGOTIATION" })
  else if stage = "NEGOTIATION" then
    let agentMsg := brain doc.history doc.trip_context transcript
    ({ utterance := agentMsg, gatherSpeech := true },
     { doc with
         history := doc.history ++
           [{ role := "user", content := transcript.getD "" },
            { role := "agent", content := agentMsg }] })
  else
    ({ utterance := "Theek hai, dhanyavaad.", gatherSpeech := true }, doc)

/-! ## Vendor orchestrator (`tools.py`, `negotiate_all_vendors`) -/

/-- Outcome of one `_negotiate_one_vendor` task as seen by
`asyncio.gather(..., return_exceptions=True)`: a contained exception, or the
task's return value (`None` on deadlock / caught call failure, a `Deal`
otherwise). -/
inductive TaskOutcome where
  | failed (message : String)
  | completed (deal : Option Deal)
  deriving Repr, DecidableEq

/-- The body of the aggregation loop: exceptions are logged and contribute
nothing, falsy results are skipped, deals are appended. -/
def collectStep (acc : List Deal) (r : TaskOutcome) : List Deal :=
  match r with
  | .failed _ => acc
  | .completed none => acc
  | .completed (some d) => acc ++ [d]

/-- The `successful_deals` aggregation over the `results` list. -/
def collectDeals (results : List TaskOutcome) : List Deal :=
  results.foldl collectStep []

/-- The `{"deals": successful_deals}` final output. -/
structure NegotiationBatchResult where
  deals : List Deal
  deriving Repr, DecidableEq

/-- `negotiate_all_vendors(vendors, trip_context)`: one task per vendor (its
result abstracted by `runOne`, exceptions contained by
`return_exceptions=True` so every sibling still runs), aggregated into
`{"deals": ...}`. -/
def negotiate_all_vendors {V : Type} (vendors : List V)
    (runOne : V → TaskOutcome) : NegotiationBatchResult :=
  { deals := collectDeals (vendors.map runOne) }

/-- The deal a single task contributes, if any. -/
def dealOfOutcome : TaskOutcome → Option Deal
  | .completed (some d) => some d
  | _ => none

/-- `asyncio.Semaphore(3)` — the concurrency cap of the orchestrator. -/
def negotiationConcurrencyLimit : ℕ := 3

/-- Phase of one per-vendor task with respect to the semaphore gate in
`sem_task`: not yet acquired, holding a permit (executing
`_negotiate_one_vendor`), or finished (permit released). -/
inductive TaskPhase where
  | waiting
  | active
  | finished
  deriving Repr, DecidableEq

/-- Scheduler state for one `negotiate_all_vendors` batch: the phase of each
task and the semaphore's free-permit count. -/
structure SchedState where
  tasks : List TaskPhase
  sem : ℕ
  deriving Repr, DecidableEq

/-- Phase of task `i`, if it exists. -/
def getTask : List TaskPhase → ℕ → Option TaskPhase
  | [], _ => none
  | a :: _, 0 => some a
  | _ :: tl, i + 1 => getTask tl i

/-- Replace the phase of task `i`. -/
def setTask : List TaskPhase → ℕ → TaskPhase → List TaskPhase
  | [], _, _ => []
  | _ :: tl, 0, v => v :: tl
  | a :: tl, i + 1, v => a :: setTask tl i v

/-- Number of tasks currently executing past the semaphore gate. -/
def activeCount : List TaskPhase → ℕ
  | [] => 0
  | p :: tl => (if p = TaskPhase.active then 1 else 0) + activeCount tl

/-- Initial scheduler state for `n` vendors: every task waits at
`async with sem`, all `negotiationConcurrencyLimit` permits free. -/
def initSched (n : ℕ) : SchedState :=
  { tasks := List.replicate n TaskPhase.waiting, sem := negotiationConcurrencyLimit }

/-- Cooperative-scheduler transitions of the semaphore protocol in `sem_task`:
a waiting task may enter only while a permit is free (acquire), and an active
task finishing its call releases its permit. -/
inductive SchedStep : SchedState → SchedState → Prop
  | acquire (s : SchedState) (i : ℕ)
      (hw : getTask s.tasks i = some TaskPhase.waiting) (hs : 0 < s.sem) :
      SchedStep s { tasks := setTask s.tasks i TaskPhase.active, sem := s.sem - 1 }
  | release (s : SchedState) (i : ℕ)
      (ha : getTask s.tasks i = some TaskPhase.active) :
      SchedStep s { tasks := setTask s.tasks i TaskPhase.finished, sem := s.sem + 1 }

/-- The semaphore accounting invariant: free permits plus held permits is the
configured limit. -/
def schedInv (s : SchedState) : Prop :=
  activeCount s.tasks + s.sem = negotiationConcurrencyLimit

/-! ## Scenario fixtures (spec §8: `budget_max=3000, market_rate=2800`) -/

/-- A concrete vendor for the simulated-negotiation scenario. -/
def scenarioVendor : Vendor :=
  { name := "Sharma Travels", phone := "+911111111111",
    category := "taxi", gender := "male" }

/-- The scenario trip context (`budget_max=3000, market_rate=2800`). -/
def scenarioTrip : TripContext :=
  { destination := some "Manali", market_rate := some 2800,
    budget_max := some 3000, vendor_type := some "taxi", party_size := some 4 }

/-- The scenario call id created by `initiate_call`. -/
def scenarioCallId : String := callIdFor scenarioVendor

/-- The store after `initiate_call` and `n` calls of `send_message`. -/
def scenarioStore : ℕ → StoreOf CallState
  | 0 => (initiate_call [] scenarioVendor scenarioTrip).2
  | n + 1 => (send_message (scenarioStore n) scenarioCallId "counter" none).2

/-- The persisted `current_quote` after `n` messages. -/
def scenarioQuote (n : ℕ) : Option ℚ :=
  (lookupDoc (scenarioStore n) scenarioCallId).bind (fun c => c.current_quote)

/-- Closed form of the simulated quote: null before the first message,
`4000 · 0.92^(n-1)` after `n ≥ 1` messages. -/
def scenarioQuoteVal : ℕ → Option ℚ
  | 0 => none
  | n + 1 => some (4000 * (92 / 100 : ℚ) ^ n)

/-- Last `round` value merge-written by the streaming run (0 before the first
write, matching the `round: 0` written at session creation). -/
def persistedVal (st : LoopSt) : ℕ := st.persistedRound.getD 0

/-! ## Counterexample fixtures -/

/-- A store holding one freshly initiated session (so `current_quote` is
null). -/
def c1Store : StoreOf CallState :=
  setDoc [] scenarioCallId (initialCallState scenarioVendor scenarioTrip)

/-- A brain whose reply contains no end signal. -/
def c2Brain : List ChatTurn → String → String := fun _ _ => "हाँ, रेट बताइए"

/-- Environment: round 1 yields no transcript twice (skipped), round 2 yields
a transcript, round 3 raises. -/
def c2Events : ℕ → RoundEvent := fun n =>
  if n = 1 then RoundEvent.listens "" ""
  else if n = 2 then RoundEvent.listens "चार हज़ार लगेंगे" ""
  else RoundEvent.crash

/-- An oracle whose first attempt fails and whose second attempt would
succeed. -/
def c7Oracle : ℕ → Except Unit String := fun n =>
  if n = 0 then Except.error () else Except.ok "ठीक है, दो हज़ार में डन"

/-- A gather-webhook document sitting in the `NEGOTIATION` stage. -/
def c9Doc : GatherDoc :=
  { stage := some "NEGOTIATION", trip_context := scenarioTrip,
    history := [], vendor := some scenarioVendor }

/-- A gather-webhook document with no stage recorded (defaults to
`INITIATED`). -/
def c9DocInit : GatherDoc :=
  { stage := none, trip_context := scenarioTrip, history := [], vendor := none }

/-- A request form carrying both a `transcript` field and the `SpeechResult`
field Twilio actually posts, with different texts. -/
def c9Form : StoreOf String :=
  [("transcript", "paanch hazaar"), ("SpeechResult", "chaar hazaar")]

/-- An oracle that echoes the transcript it is shown. -/
def c9Brain : List ChatTurn → TripContext → Option String → String :=
  fun _ _ t => t.getD "silence"

/-- A sample deal for orchestrator tests. -/
def c4Deal : Deal :=
  { vendor_name := "Verma Taxis", phone := "+912222222222",
    service_type := "taxi", negotiated_price := 2500, status := "DEAL_SUCCESS" }

/-- A per-vendor runner where vendor `0` raises and every other vendor closes
`c4Deal`. -/
def c4Run : ℕ → TaskOutcome := fun n =>
  if n = 0 then TaskOutcome.failed "boom" else TaskOutcome.completed (some c4Deal)

/-! ## Store lemmas -/

theorem lookupDoc_setDoc_self {α : Type} (s : StoreOf α) (k : String) (v : α) :
    lookupDoc (setDoc s k v) k = some v := by
  simp [setDoc, lookupDoc]

theorem lookupDoc_deleteDoc_self {α : Type} (s : StoreOf α) (k : String) :
    lookupDoc (deleteDoc s k) k = none := by
  induction s with
  | nil => rfl
  | cons p tl ih =>
      by_cases h : p.1 = k
      · simpa [deleteDoc, h] using ih
      · simpa [deleteDoc, lookupDoc, h] using ih

theorem lookupDoc_deleteDoc_ne {α : Type} (s : StoreOf α) (k k2 : String)
    (h : k2 ≠ k) : lookupDoc (deleteDoc s k) k2 = lookupDoc s k2 := by
  have hk : ¬ (k = k2) := fun hc => h hc.symm
  induction s with
  | nil => rfl
  | cons p tl ih =>
      by_cases hp : p.1 = k
      · simp [deleteDoc, lookupDoc, hp, hk, ih]
      · by_cases hq : p.1 = k2
        · simp [deleteDoc, lookupDoc, hp, hq, h]
        · simp [deleteDoc, lookupDoc, hp, hq, ih]

theorem lookupDoc_setDoc_ne {α : Type} (s : StoreOf α) (k k2 : String) (v : α)
    (h : k2 ≠ k) : lookupDoc (setDoc s k v) k2 = lookupDoc s k2 := by
  have hk : k ≠ k2 := fun hc => h hc.symm
  simp [setDoc, lookupDoc, hk, lookupDoc_deleteDoc_ne s k k2 h]

theorem scenarioStore_lookup (n : ℕ) :
    ∃ c : CallState, lookupDoc (scenarioStore n) scenarioCallId = some c ∧
      c.round = n ∧ c.current_quote = scenarioQuoteVal n ∧
      c.vendor = scenarioVendor := by
  induction n with
  | zero =>
      refine ⟨initialCallState scenarioVendor scenarioTrip, ?_, rfl, rfl, rfl⟩
      exact lookupDoc_setDoc_self [] scenarioCallId _
  | succ n ih =>
      obtain ⟨c, hc, hr, hq, hv⟩ := ih
      have hstep : scenarioStore (n + 1)
          = (send_message (scenarioStore n) scenarioCallId "counter" none).2 := rfl
      cases n with
      | zero =>
          have hqn : c.current_quote = none := hq
          refine ⟨{ c with
              round := c.round + 1
              current_quote := some 4000
              history := (c.history ++ [Turn.agent "counter" none]) ++
                [Turn.vendor ("Our rate is ₹" ++ ratText 4000)] },
            ?_, by simp [hr], by norm_num [scenarioQuoteVal], by simp [hv]⟩
          rw [hstep]
          simp only [send_message, hc, hqn]
          exact lookupDoc_setDoc_self _ _ _
      | succ m =>
          have hqn : c.current_quote = some (4000 * (92 / 100 : ℚ) ^ m) := hq
          refine ⟨{ c with
              round := c.round + 1
              current_quote := some (4000 * (92 / 100 : ℚ) ^ m * (92 / 100))
              history := (c.history ++ [Turn.agent "counter" none]) ++
                [Turn.vendor ("Best I can do is ₹" ++
                  ratText (4000 * (92 / 100 : ℚ) ^ m * (92 / 100)))] },
            ?_, by simp [hr], ?_, by simp [hv]⟩
          · rw [hstep]
            simp only [send_message, hc, hqn]
            exact lookupDoc_setDoc_self _ _ _
          · simp only [scenarioQuoteVal, Option.some.injEq]
            rw [pow_succ]
            ring

theorem scenarioQuote_closed (n : ℕ) :
    scenarioQuote (n + 1) = some (4000 * (92 / 100 : ℚ) ^ n) := by
  obtain ⟨c, hc, hr, hq, hv⟩ := scenarioStore_lookup (n + 1)
  simp [scenarioQuote, hc, hq, scenarioQuoteVal]

/-! ## Loop invariants -/

theorem loopIter_round (brain : List ChatTurn → String → String)
    (ev : RoundEvent) (st : LoopSt) :
    (loopIter brain ev st).state.round_num = st.round_num + 1 := by
  cases ev with
  | crash => rfl
  | listens f r =>
      simp only [loopIter]
      split_ifs <;> rfl

theorem loopIter_persisted (brain : List ChatTurn → String → String)
    (ev : RoundEvent) (st : LoopSt) (h : persistedVal st ≤ st.round_num) :
    persistedVal st ≤ persistedVal (loopIter brain ev st).state ∧
      persistedVal (loopIter brain ev st).state
        ≤ (loopIter brain ev st).state.round_num := by
  cases ev with
  | crash =>
      simp only [loopIter, StepOut.state]
      exact ⟨le_refl _, Nat.le_succ_of_le h⟩
  | listens f r =>
      simp only [persistedVal] at h ⊢
      simp only [loopIter]
      split_ifs <;> dsimp only [StepOut.state] <;>
        (try simp only [Option.getD_some]) <;> omega

theorem loopGo_invariant (brain : List ChatTurn → String → String)
    (events : ℕ → RoundEvent) :
    ∀ (fuel : ℕ) (st : LoopSt), persistedVal st ≤ st.round_num →
      persistedVal st ≤ persistedVal (loopGo brain events fuel st).1 ∧
        persistedVal (loopGo brain events fuel st).1
          ≤ (loopGo brain events fuel st).1.round_num ∧
        (loopGo brain events fuel st).1.round_num ≤ st.round_num + fuel := by
  intro fuel
  induction fuel with
  | zero =>
      intro st h
      exact ⟨le_refl _, h, le_refl _⟩
  | succ fuel ih =>
      intro st h
      have hround := loopIter_round brain (events (st.round_num + 1)) st
      have hpers := loopIter_persisted brain (events (st.round_num + 1)) st h
      cases hout : loopIter brain (events (st.round_num + 1)) st with
      | next st1 =>
          rw [hout] at hround hpers
          simp only [StepOut.state] at hround hpers
          have := ih st1 hpers.2
          simp only [loopGo, hout]
          exact ⟨le_trans hpers.1 this.1, this.2.1, by omega⟩
      | ended st1 =>
          rw [hout] at hround hpers
          simp only [StepOut.state] at hround hpers
          simp only [loopGo, hout]
          exact ⟨hpers.1, hpers.2, by omega⟩
      | crashed st1 =>
          rw [hout] at hround hpers
          simp only [StepOut.state] at hround hpers
          simp only [loopGo, hout]
          exact ⟨hpers.1, hpers.2, by omega⟩

theorem stepOutStateIte (c : Prop) [Decidable c] (a : LoopSt) :
    StepOut.state (if c then StepOut.ended a else StepOut.next a) = a := by
  split <;> rfl

/-! ## Semaphore invariant -/

theorem activeCount_setTask :
    ∀ (l : List TaskPhase) (i : ℕ) (w v : TaskPhase), getTask l i = some w →
      activeCount (setTask l i v) + (if w = TaskPhase.active then 1 else 0)
        = activeCount l + (if v = TaskPhase.active then 1 else 0) := by
  intro l
  induction l with
  | nil => intro i w v h; cases h
  | cons a tl ih =>
      intro i w v h
      cases i with
      | zero =>
          injection h with h
          subst h
          simp only [setTask, activeCount]
          split_ifs <;> omega
      | succ j =>
          have hj : getTask tl j = some w := h
          have := ih j w v hj
          simp only [setTask, activeCount]
          omega

theorem activeCount_replicate_waiting (n : ℕ) :
    activeCount (List.replicate n TaskPhase.waiting) = 0 := by
  induction n with
  | zero => rfl
  | succ n ih => simpa [List.replicate, activeCount] using ih

theorem schedStep_inv {s t : SchedState} (h : SchedStep s t) (hi : schedInv s) :
    schedInv t := by
  cases h with
  | acquire i hw hs =>
      have hset := activeCount_setTask s.tasks i TaskPhase.waiting TaskPhase.active hw
      simp only [schedInv] at hi ⊢
      simp at hset
      omega
  | release i ha =>
      have hset := activeCount_setTask s.tasks i TaskPhase.active TaskPhase.finished ha
      simp only [schedInv] at hi ⊢
      simp at hset
      omega

/-! ## Aggregation -/

theorem foldl_collectStep (rs : List TaskOutcome) :
    ∀ acc : List Deal,
      rs.foldl collectStep acc = acc ++ rs.filterMap dealOfOutcome := by
  induction rs with
  | nil => intro acc; simp
  | cons r tl ih =>
      intro acc
      cases r with
      | failed m => simp [collectStep, dealOfOutcome, ih]
      | completed d => cases d <;> simp [collectStep, dealOfOutcome, ih]

/-! ## Claim theorems -/

/-- C3: for every vendor list of length `n` processed by
`negotiate_all_vendors`, in every state the cooperative scheduler can reach
from the initial one by acquiring and releasing the `asyncio.Semaphore(3)`
permits, at most `K = negotiationConcurrencyLimit = 3` per-vendor negotiation
tasks are concurrently active past the gate; the rest wait for a free
permit. -/
theorem negotiate_all_vendors_concurrency_cap (n : ℕ) (s : SchedState)
    (h : Relation.ReflTransGen SchedStep (initSched n) s) :
    activeCount s.tasks ≤ negotiationConcurrencyLimit := by
  have hinv : schedInv s := by
    induction h with
    | refl => simp [schedInv, initSched, activeCount_replicate_waiting]
    | tail hsteps hstep ih => exact schedStep_inv hstep ih
  simp only [schedInv] at hinv
  omega

/-- Witness for C3: a concrete reachable state (one task has acquired a
permit out of a two-vendor batch) respects the cap. -/
theorem negotiate_all_vendors_concurrency_cap_witness :
    activeCount
      (SchedState.mk (setTask (initSched 2).tasks 0 TaskPhase.active)
        ((initSched 2).sem - 1)).tasks ≤ negotiationConcurrencyLimit :=
  negotiate_all_vendors_concurrency_cap 2 _
    (Relation.ReflTransGen.single
      (SchedStep.acquire (initSched 2) 0 rfl (by decide)))

/-- C4: per-call failures are isolated in the orchestrator — the batch result
is exactly `{"deals": L}` where `L` collects every non-exception, non-null
task result in order; aggregation distributes over concatenation; and a
failing vendor in the middle of the list contributes nothing while every
sibling's deal still appears. -/
theorem negotiate_all_vendors_isolates_failures {V : Type} (vendors : List V)
    (runOne : V → TaskOutcome) :
    (negotiate_all_vendors vendors runOne).deals
        = (vendors.map runOne).filterMap dealOfOutcome ∧
      (∀ rs1 rs2 : List TaskOutcome,
        collectDeals (rs1 ++ rs2) = collectDeals rs1 ++ collectDeals rs2) ∧
      ∀ (xs ys : List V) (v : V), dealOfOutcome (runOne v) = none →
        (negotiate_all_vendors (xs ++ v :: ys) runOne).deals
          = (negotiate_all_vendors xs runOne).deals
            ++ (negotiate_all_vendors ys runOne).deals := by
  refine ⟨?_, ?_, ?_⟩
  · simp [negotiate_all_vendors, collectDeals, foldl_collectStep]
  · intro rs1 rs2
    simp [collectDeals, foldl_collectStep]
  · intro xs ys v hv
    have hstep : ∀ acc : List Deal, collectStep acc (runOne v) = acc := by
      intro acc
      cases hr : runOne v with
      | failed m => rfl
      | completed d =>
          cases d with
          | none => rfl
          | some d0 =>
              rw [hr] at hv
              simp [dealOfOutcome] at hv
    simp [negotiate_all_vendors, collectDeals, foldl_collectStep, hstep]

/-- Witness for C4: with vendor `0` raising an exception between vendors `1`
and `2`, the batch still returns both siblings' deals. -/
theorem negotiate_all_vendors_isolates_failures_witness :
    (negotiate_all_vendors ([1] ++ 0 :: [2]) c4Run).deals
      = (negotiate_all_vendors [1] c4Run).deals
        ++ (negotiate_all_vendors [2] c4Run).deals :=
  (negotiate_all_vendors_isolates_failures ([1] ++ 0 :: [2]) c4Run).2.2
    [1] [2] 0 (by decide)

/-- C6: for a stored session, `accept_deal(call_id, final_price)` returns the
`Deal` record with exactly the vendor's name, phone and category, the given
price and status `DEAL_SUCCESS`, and deletes exactly that session (the call id
no longer resolves, all other keys are untouched); for an unknown call id it
returns an error and leaves the store unchanged. -/
theorem accept_deal_contract :
    (∀ (store : StoreOf CallState) (cid : String) (p : ℚ) (call : CallState),
        lookupDoc store cid = some call →
          accept_deal store cid p
            = (AcceptResult.deal
                { vendor_name := call.vendor.name
                  phone := call.vendor.phone
                  service_type := call.vendor.category
                  negotiated_price := p
                  status := "DEAL_SUCCESS" },
               deleteDoc store cid) ∧
          lookupDoc (accept_deal store cid p).2 cid = none ∧
          ∀ k2 : String, k2 ≠ cid →
            lookupDoc (accept_deal store cid p).2 k2 = lookupDoc store k2) ∧
    ∀ (store : StoreOf CallState) (cid : String) (p : ℚ),
      lookupDoc store cid = none →
        accept_deal store cid p = (AcceptResult.err "Invalid call_id", store) := by
  constructor
  · intro store cid p call h
    refine ⟨by simp [accept_deal, h], ?_, ?_⟩
    · simp [accept_deal, h, lookupDoc_deleteDoc_self]
    · intro k2 hk
      simp [accept_deal, h, lookupDoc_deleteDoc_ne store cid k2 hk]
  · intro store cid p h
    simp [accept_deal, h]

/-- Witness for C6: both branches at concrete inputs — accepting on the
freshly initiated scenario session yields the concrete `Deal` and the
deletion, and an unknown id yields the error with the store unchanged. -/
theorem accept_deal_contract_witness :
    accept_deal (scenarioStore 0) scenarioCallId 2900
        = (AcceptResult.deal
            { vendor_name := "Sharma Travels"
              phone := "+911111111111"
              service_type := "taxi"
              negotiated_price := 2900
              status := "DEAL_SUCCESS" },
           deleteDoc (scenarioStore 0) scenarioCallId) ∧
      accept_deal (scenarioStore 0) "call_nope" 2900
        = (AcceptResult.err "Invalid call_id", scenarioStore 0) := by
  constructor
  · exact ((accept_deal_contract.1 (scenarioStore 0) scenarioCallId 2900
      (initialCallState scenarioVendor scenarioTrip)
      (lookupDoc_setDoc_self [] scenarioCallId _)).1).trans rfl
  · exact accept_deal_contract.2 (scenarioStore 0) "call_nope" 2900 (by decide)

/-- C10: on every exit path of the streaming loop — end-signal break,
`max_rounds` exhaustion, or an exception caught by the handler — the run
requests hangup and performs the final merge-write with status `COMPLETED`
(never `DEADLOCK`) and `final_round` equal to the last round number (which
never exceeds `max_rounds`), and the session document is not deleted. -/
theorem run_streaming_negotiation_always_completes
    (brain : List ChatTurn → String → String) (events : ℕ → RoundEvent)
    (initHistory : List ChatTurn) :
    (run_streaming_negotiation brain events initHistory).finalStatus
        = "COMPLETED" ∧
      (run_streaming_negotiation brain events initHistory).finalStatus
        ≠ "DEADLOCK" ∧
      (run_streaming_negotiation brain events initHistory).hangupRequested
        = true ∧
      (run_streaming_negotiation brain events initHistory).sessionDeleted
        = false ∧
      (run_streaming_negotiation brain events initHistory).final_round
        = (run_streaming_negotiation brain events initHistory).finalState.round_num ∧
      (run_streaming_negotiation brain events initHistory).final_round
        ≤ max_rounds := by
  refine ⟨rfl, ?_, rfl, rfl, rfl, ?_⟩
  · intro hc
    have heq : "COMPLETED" = "DEADLOCK" := hc
    exact absurd heq (by decide)
  have h0 : persistedVal (initLoopSt initHistory)
      ≤ (initLoopSt initHistory).round_num := by
    simp [persistedVal, initLoopSt]
  have hb := (loopGo_invariant brain events max_rounds
    (initLoopSt initHistory) h0).2.2
  simpa [run_streaming_negotiation, initLoopSt] using hb

/-- Witness for C10: the guarantee instantiated on a concrete run (skip,
complete, crash): terminal status `COMPLETED`, hangup requested, session kept,
round count within the bound. -/
theorem run_streaming_negotiation_always_completes_witness :
    (run_streaming_negotiation c2Brain c2Events []).finalStatus = "COMPLETED" ∧
      (run_streaming_negotiation c2Brain c2Events []).hangupRequested = true ∧
      (run_streaming_negotiation c2Brain c2Events []).sessionDeleted = false ∧
      (run_streaming_negotiation c2Brain c2Events []).final_round ≤ max_rounds :=
  ⟨(run_streaming_negotiation_always_completes c2Brain c2Events []).1,
   (run_streaming_negotiation_always_completes c2Brain c2Events []).2.2.1,
   (run_streaming_negotiation_always_completes c2Brain c2Events []).2.2.2.1,
   (run_streaming_negotiation_always_completes c2Brain c2Events []).2.2.2.2.2⟩

/-- C1 counterexample: a session whose `current_quote` is still null is
finalized as `DEAL_SUCCESS` by `accept_deal` at a price far above any budget
band — the numeric budget rule is not checked. -/
theorem accept_deal_ignores_quote_counterexample :
    lookupDoc c1Store scenarioCallId
        = some (initialCallState scenarioVendor scenarioTrip) ∧
      (initialCallState scenarioVendor scenarioTrip).current_quote = none ∧
      (accept_deal c1Store scenarioCallId 99999).1
        = AcceptResult.deal
            { vendor_name := "Sharma Travels"
              phone := "+911111111111"
              service_type := "taxi"
              negotiated_price := 99999
              status := "DEAL_SUCCESS" } := by
  refine ⟨lookupDoc_setDoc_self [] scenarioCallId _, rfl, ?_⟩
  have h := lookupDoc_setDoc_self [] scenarioCallId
    (initialCallState scenarioVendor scenarioTrip)
  simp only [accept_deal, c1Store, h]
  rfl

/-- C1 (amended): deal acceptance on the coded paths is not gated by the
numeric budget rule — `accept_deal` finalizes a `DEAL_SUCCESS` deal for every
call id with a stored session, whatever `current_quote` holds (even null or
above the budget band; the budget rule exists only as prompt text given to the
oracle), and the streaming loop's end-of-call decision never finalizes a
success at all: its terminal persisted status is always `COMPLETED`, never
`DEAL_SUCCESS`. -/
theorem acceptance_gate_amended :
    (∀ (store : StoreOf CallState) (cid : String) (p : ℚ) (call : CallState),
        lookupDoc store cid = some call →
          (accept_deal store cid p).1
            = AcceptResult.deal
                { vendor_name := call.vendor.name
                  phone := call.vendor.phone
                  service_type := call.vendor.category
                  negotiated_price := p
                  status := "DEAL_SUCCESS" }) ∧
      ∀ (brain : List ChatTurn → String → String) (events : ℕ → RoundEvent)
        (initHistory : List ChatTurn),
        (run_streaming_negotiation brain events initHistory).finalStatus
            = "COMPLETED" ∧
          (run_streaming_negotiation brain events initHistory).finalStatus
            ≠ "DEAL_SUCCESS" := by
  constructor
  · intro store cid p call h
    simp [accept_deal, h]
  · intro brain events initHistory
    refine ⟨rfl, ?_⟩
    intro hc
    have heq : "COMPLETED" = "DEAL_SUCCESS" := hc
    exact absurd heq (by decide)

/-- Witness for C1 (amended): the unconditional-acceptance branch applied to
the stored scenario session. -/
theorem acceptance_gate_amended_witness :
    (accept_deal c1Store scenarioCallId 2500).1
      = AcceptResult.deal
          { vendor_name := "Sharma Travels"
            phone := "+911111111111"
            service_type := "taxi"
            negotiated_price := 2500
            status := "DEAL_SUCCESS" } :=
  (acceptance_gate_amended.1 c1Store scenarioCallId 2500
    (initialCallState scenarioVendor scenarioTrip)
    (lookupDoc_setDoc_self [] scenarioCallId _)).trans rfl

/-- C2 counterexample: a run in which round 1 is skipped for want of a
transcript and round 2 completes performs exactly one completed round
(`oracleCalls = 1`) yet jumps the persisted round counter from the 0 written
at session creation straight to 2 — not by exactly one per completed round. -/
theorem round_persistence_counterexample :
    (initialCallState scenarioVendor scenarioTrip).round = 0 ∧
      (run_streaming_negotiation c2Brain c2Events []).finalState.oracleCalls
        = 1 ∧
      (run_streaming_negotiation c2Brain c2Events []).finalState.persistedRound
        = some 2 ∧
      (run_streaming_negotiation c2Brain c2Events []).finalState.persistedRound
        ≠ some ((initialCallState scenarioVendor scenarioTrip).round + 1) := by
  refine ⟨rfl, by decide, by decide, by decide⟩

/-- C2 (amended): `round` starts at 0 at session creation; every
`send_message` on a stored session sets the persisted round to the previous
round plus one (and reports it); every iteration of the streaming loop
increments the in-memory round number by exactly one; and the round value
merge-written by the streaming run never decreases — but a completed round
may advance the persisted counter by more than one when skipped no-transcript
rounds precede it. -/
theorem round_counter_amended :
    (∀ (vendor : Vendor) (tc : TripContext),
        (initialCallState vendor tc).round = 0) ∧
      (∀ (store : StoreOf CallState) (cid message : String) (offer : Option ℚ)
          (call : CallState), lookupDoc store cid = some call →
          ∃ call1 : CallState,
            lookupDoc (send_message store cid message offer).2 cid = some call1 ∧
            call1.round = call.round + 1 ∧
            ∃ (msg : String) (q : ℚ),
              (send_message store cid message offer).1
                = SendResult.ok cid msg q (call.round + 1)) ∧
      (∀ (brain : List ChatTurn → String → String) (ev : RoundEvent)
          (st : LoopSt),
          (loopIter brain ev st).state.round_num = st.round_num + 1) ∧
      ∀ (brain : List ChatTurn → String → String) (events : ℕ → RoundEvent)
        (fuel : ℕ) (st : LoopSt), persistedVal st ≤ st.round_num →
        persistedVal st ≤ persistedVal (loopGo brain events fuel st).1 := by
  refine ⟨fun _ _ => rfl, ?_, loopIter_round, ?_⟩
  · intro store cid message offer call h
    cases hq : call.current_quote with
    | none =>
        refine ⟨{ call with
            round := call.round + 1
            current_quote := some 4000
            history := (call.history ++ [Turn.agent message offer]) ++
              [Turn.vendor ("Our rate is ₹" ++ ratText 4000)] },
          ?_, by simp, "Our rate is ₹" ++ ratText 4000, 4000, ?_⟩
        · simp only [send_message, h, hq]
          exact lookupDoc_setDoc_self _ _ _
        · simp only [send_message, h, hq]
    | some q0 =>
        refine ⟨{ call with
            round := call.round + 1
            current_quote := some (q0 * (92 / 100))
            history := (call.history ++ [Turn.agent message offer]) ++
              [Turn.vendor ("Best I can do is ₹" ++ ratText (q0 * (92 / 100)))] },
          ?_, by simp,
          "Best I can do is ₹" ++ ratText (q0 * (92 / 100)), q0 * (92 / 100), ?_⟩
        · simp only [send_message, h, hq]
          exact lookupDoc_setDoc_self _ _ _
        · simp only [send_message, h, hq]
  · intro brain events fuel st h
    exact (loopGo_invariant brain events fuel st h).1

/-- Witness for C2 (amended): one `send_message` on the freshly created
scenario session moves the stored round from 0 to 1 and reports round 1. -/
theorem round_counter_amended_witness :
    ∃ call1 : CallState,
      lookupDoc (send_message (scenarioStore 0) scenarioCallId "hello" none).2
          scenarioCallId = some call1 ∧
        call1.round = 0 + 1 ∧
        ∃ (msg : String) (q : ℚ),
          (send_message (scenarioStore 0) scenarioCallId "hello" none).1
            = SendResult.ok scenarioCallId msg q (0 + 1) :=
  round_counter_amended.2.1 (scenarioStore 0) scenarioCallId "hello" none
    (initialCallState scenarioVendor scenarioTrip)
    (lookupDoc_setDoc_self [] scenarioCallId _)

/-- C5 counterexample: the third simulated quote is exactly `3385.6`
(= 4000·0.92²), not the `3386` the claim lists as the quote value. -/
theorem scenario_quote_rounding_counterexample :
    scenarioQuote 3 = some (3385.6 : ℚ) ∧
      scenarioQuote 3 ≠ some (3386 : ℚ) := by
  have h := scenarioQuote_closed 2
  constructor
  · rw [h]
    norm_num
  · rw [h]
    intro hc
    rw [Option.some.injEq] at hc
    norm_num at hc

/-- C5 (amended): in the simulated vendor model, the first message sets the
quote to 4000 and each later message multiplies it by 0.92, so after `n ≥ 1`
messages the quote is exactly `4000·0.92^(n-1)`; the exact quote sequence is
`4000, 3680, 3385.6, 3114.752, 2865.57184` (rounding to the spec's displayed
`4000, 3680, 3386, 3115, 2866`); the quote first satisfies `quote ≤ 3000` at
message 5; and accepting at that quote yields a `Deal` with
`negotiated_price = 2865.57184` (≈ 2866) and status `DEAL_SUCCESS`. -/
theorem scenario_quote_amended :
    (∀ n : ℕ, scenarioQuote (n + 1) = some (4000 * (92 / 100 : ℚ) ^ n)) ∧
      scenarioQuote 1 = some (4000 : ℚ) ∧
      scenarioQuote 2 = some (3680 : ℚ) ∧
      scenarioQuote 3 = some (3385.6 : ℚ) ∧
      scenarioQuote 4 = some (3114.752 : ℚ) ∧
      scenarioQuote 5 = some (2865.57184 : ℚ) ∧
      (scenarioQuote 3).map (fun q => round q) = some 3386 ∧
      (scenarioQuote 4).map (fun q => round q) = some 3115 ∧
      (scenarioQuote 5).map (fun q => round q) = some 2866 ∧
      (∀ k : ℕ, 1 ≤ k → k ≤ 4 →
        ∃ q : ℚ, scenarioQuote k = some q ∧ (3000 : ℚ) < q) ∧
      ∃ q : ℚ, scenarioQuote 5 = some q ∧ q ≤ 3000 ∧
        (accept_deal (scenarioStore 5) scenarioCallId q).1
          = AcceptResult.deal
              { vendor_name := "Sharma Travels"
                phone := "+911111111111"
                service_type := "taxi"
                negotiated_price := q
                status := "DEAL_SUCCESS" } := by
  have h1 := scenarioQuote_closed 0
  have h2 := scenarioQuote_closed 1
  have h3 := scenarioQuote_closed 2
  have h4 := scenarioQuote_closed 3
  have h5 := scenarioQuote_closed 4
  have e1 : scenarioQuote 1 = some (4000 : ℚ) := by rw [h1]; norm_num
  have e2 : scenarioQuote 2 = some (3680 : ℚ) := by rw [h2]; norm_num
  have e3 : scenarioQuote 3 = some (3385.6 : ℚ) := by rw [h3]; norm_num
  have e4 : scenarioQuote 4 = some (3114.752 : ℚ) := by rw [h4]; norm_num
  have e5 : scenarioQuote 5 = some (2865.57184 : ℚ) := by rw [h5]; norm_num
  refine ⟨scenarioQuote_closed, e1, e2, e3, e4, e5, ?_, ?_, ?_, ?_, ?_⟩
  · rw [e3]
    show some (round (3385.6 : ℚ)) = some 3386
    rw [Option.some.injEq, round_eq]
    norm_num
  · rw [e4]
    show some (round (3114.752 : ℚ)) = some 3115
    rw [Option.some.injEq, round_eq]
    norm_num
  · rw [e5]
    show some (round (2865.57184 : ℚ)) = some 2866
    rw [Option.some.injEq, round_eq]
    norm_num
  · intro k hk1 hk4
    interval_cases k
    · exact ⟨4000, e1, by norm_num⟩
    · exact ⟨3680, e2, by norm_num⟩
    · exact ⟨3385.6, e3, by norm_num⟩
    · exact ⟨3114.752, e4, by norm_num⟩
  · refine ⟨2865.57184, e5, by norm_num, ?_⟩
    obtain ⟨c, hc, hr, hq, hv⟩ := scenarioStore_lookup 5
    simp only [accept_deal, hc, hv]
    rfl

/-- Witness for C5 (amended): the within-budget bound applied at message 4,
a concrete in-band instance of the hypothesis-bearing conjunct. -/
theorem scenario_quote_amended_witness :
    ∃ q : ℚ, scenarioQuote 4 = some q ∧ (3000 : ℚ) < q :=
  scenario_quote_amended.2.2.2.2.2.2.2.2.2.1 4 (by decide) (by decide)

/-- C7 counterexample: with an oracle whose first attempt fails and whose
second attempt would succeed, the source brain returns the canned decline
utterance — it performs no retry — whereas the spec's retry-with-bound
behaviour (here bound 1) would have returned the model's text. -/
theorem brain_no_retry_counterexample :
    generate_negotiation_response c7Oracle [] scenarioTrip "kitna loge"
        = CANNED_DECLINE ∧
      generate_with_retry 1 c7Oracle [] scenarioTrip "kitna loge"
        = "ठीक है, दो हज़ार में डन" ∧
      CANNED_DECLINE ≠ "ठीक है, दो हज़ार में डन" := by
  refine ⟨by decide, by decide, by decide⟩

/-- C7 (amended): `generate_negotiation_response` never propagates an
exception — it is a total function returning either the model's (stripped)
text or the fixed canned decline utterance — and falls back to the canned
utterance when required `trip_context` fields are missing or when the single
model attempt fails; it invokes the collaborator at most once (its behaviour
coincides with the spec's retry scheme at bound 0, i.e. no retry and no
backoff); the canned utterance contains no end signal, and a round in which it
is produced still counts: the loop still advances and persists the round
number. -/
theorem brain_total_fallback_amended :
    ∀ (f : ℕ → Except Unit String) (history : List ChatTurn)
      (tc : TripContext) (t : String),
      (requiredMissing tc ≠ [] →
        generate_negotiation_response f history tc t = CANNED_DECLINE) ∧
      (f 0 = Except.error () →
        generate_negotiation_response f history tc t = CANNED_DECLINE) ∧
      (∀ s : String, requiredMissing tc = [] → f 0 = Except.ok s →
        generate_negotiation_response f history tc t = stripText s) ∧
      generate_negotiation_response f history tc t
        = generate_with_retry 0 f history tc t ∧
      containsSignal CANNED_DECLINE = false ∧
      ∀ (st : LoopSt) (tr : String), tr ≠ "" →
        (loopIter (fun h2 t2 => generate_negotiation_response f h2 tc t2)
            (RoundEvent.listens tr "") st).state.round_num
          = st.round_num + 1 ∧
        (loopIter (fun h2 t2 => generate_negotiation_response f h2 tc t2)
            (RoundEvent.listens tr "") st).state.persistedRound
          = some (st.round_num + 1) := by
  intro f history tc t
  refine ⟨?_, ?_, ?_, ?_, by decide, ?_⟩
  · intro hm
    simp [generate_negotiation_response, hm]
  · intro hf
    by_cases hm : requiredMissing tc = []
    · simp [generate_negotiation_response, hm, hf]
    · simp [generate_negotiation_response, hm]
  · intro s hm hf
    simp [generate_negotiation_response, hm, hf]
  · by_cases hm : requiredMissing tc = []
    · cases hf : f 0 with
      | ok s =>
          simp [generate_negotiation_response, generate_with_retry,
            retryAttempts, hm, hf]
      | error e =>
          simp [generate_negotiation_response, generate_with_retry,
            retryAttempts, hm, hf]
    · simp [generate_negotiation_response, generate_with_retry, hm]
  · intro st tr htr
    constructor
    · exact loopIter_round _ _ st
    · simp only [loopIter, if_neg htr, stepOutStateIte]

/-- Witness for C7 (amended): a successful single attempt is returned as-is
on a complete trip context. -/
theorem brain_total_fallback_amended_witness :
    generate_negotiation_response (fun _ => Except.ok "acha theek hai") []
        scenarioTrip "x" = "acha theek hai" :=
  ((brain_total_fallback_amended (fun _ => Except.ok "acha theek hai") []
      scenarioTrip "x").2.2.1 "acha theek hai" (by decide) rfl).trans (by decide)

/-- C8: per-round no-transcript handling retries exactly once — if the first
listen is empty and the retry is also empty, the round is skipped: the
iteration returns `continue` having consumed exactly two listens, advanced the
round number, and changed nothing else (no history append, no oracle call, no
write, nothing spoken); if only the first listen is empty, the retry's
transcript is the one processed (two listens, one oracle call, the user and
assistant turns appended); if the first listen is non-empty, no retry happens
(exactly one listen). -/
theorem no_transcript_retry_once (brain : List ChatTurn → String → String)
    (f r : String) (st : LoopSt) :
    (f = "" → r = "" →
      loopIter brain (RoundEvent.listens f r) st
        = StepOut.next { st with
            round_num := st.round_num + 1
            listens := st.listens + 2 }) ∧
      (f = "" → r ≠ "" →
        (loopIter brain (RoundEvent.listens f r) st).state.listens
            = st.listens + 2 ∧
          (loopIter brain (RoundEvent.listens f r) st).state.oracleCalls
            = st.oracleCalls + 1 ∧
          (loopIter brain (RoundEvent.listens f r) st).state.history
            = (st.history ++ [{ role := "user", content := r }]) ++
              [{ role := "assistant"
                 content := brain
                   (st.history ++ [{ role := "user", content := r }]) r }]) ∧
      (f ≠ "" →
        (loopIter brain (RoundEvent.listens f r) st).state.listens
          = st.listens + 1) := by
  refine ⟨?_, ?_, ?_⟩
  · intro hf hr
    subst hf
    subst hr
    simp [loopIter]
  · intro hf hr
    subst hf
    simp [loopIter, hr, stepOutStateIte]
  · intro hf
    simp [loopIter, hf, stepOutStateIte]

/-- Witness for C8: a doubly-empty round on the initial state is skipped with
two listens consumed and nothing else changed. -/
theorem no_transcript_retry_once_witness :
    loopIter (fun _ _ => "theek hai") (RoundEvent.listens "" "") (initLoopSt [])
      = StepOut.next { initLoopSt [] with round_num := 1, listens := 2 } :=
  (no_transcript_retry_once (fun _ _ => "theek hai") "" "" (initLoopSt [])).1
    rfl rfl

/-- C9 counterexample: the gather webhook reads the vendor's spoken text from
the form field `SpeechResult`, not from a field named `transcript`: on a form
carrying both, the text stored in history (and echoed by the oracle) is the
`SpeechResult` one. -/
theorem gather_field_name_counterexample :
    lookupDoc c9Form "transcript" = some "paanch hazaar" ∧
      (twilio_gather_callback c9Brain c9Doc c9Form).2.history
        = [{ role := "user", content := "chaar hazaar" },
           { role := "agent", content := "chaar hazaar" }] ∧
      ("chaar hazaar" : String) ≠ "paanch hazaar" := by
  refine ⟨by decide, by decide, by decide⟩

/-- C9 (amended): for every POST to the gather webhook, the vendor's spoken
text is carried by the form field `SpeechResult` (not `transcript`), and the
response always contains an utterance plus another gather-speech instruction;
the stage machine follows `INITIATED → NEGOTIATION → (terminal)`: from
`INITIATED` the stage becomes `NEGOTIATION` with history untouched, in
`NEGOTIATION` the stage is unchanged, the oracle generates the reply and
exactly the user turn and the agent turn are appended, and any terminal stage
yields the fixed closing utterance with the document untouched. -/
theorem gather_callback_amended :
    ∀ (brain : List ChatTurn → TripContext → Option String → String)
      (doc : GatherDoc) (form : StoreOf String),
      (twilio_gather_callback brain doc form).1.gatherSpeech = true ∧
      (doc.stage.getD "INITIATED" = "INITIATED" →
        (twilio_gather_callback brain doc form).2.stage = some "NEGOTIATION" ∧
        (twilio_gather_callback brain doc form).2.history = doc.history) ∧
      (doc.stage.getD "INITIATED" = "NEGOTIATION" →
        (twilio_gather_callback brain doc form).2.stage = doc.stage ∧
        (twilio_gather_callback brain doc form).1.utterance
          = brain doc.history doc.trip_context (lookupDoc form "SpeechResult") ∧
        (twilio_gather_callback brain doc form).2.history
          = doc.history ++
            [{ role := "user"
               content := (lookupDoc form "SpeechResult").getD "" },
             { role := "agent"
               content := brain doc.history doc.trip_context
                 (lookupDoc form "SpeechResult") }]) ∧
      (doc.stage.getD "INITIATED" ≠ "INITIATED" →
        doc.stage.getD "INITIATED" ≠ "NEGOTIATION" →
        (twilio_gather_callback brain doc form).1.utterance
            = "Theek hai, dhanyavaad." ∧
          (twilio_gather_callback brain doc form).2 = doc) := by
  intro brain doc form
  refine ⟨?_, ?_, ?_, ?_⟩
  · simp only [twilio_gather_callback]
    split_ifs <;> rfl
  · intro h
    simp [twilio_gather_callback, h]
  · intro h
    have hne : doc.stage.getD "INITIATED" ≠ "INITIATED" := by
      rw [h]
      decide
    simp [twilio_gather_callback, h, hne]
  · intro h1 h2
    simp [twilio_gather_callback, h1, h2]

/-- Witness for C9 (amended): a document with no recorded stage defaults to
`INITIATED` and transitions to `NEGOTIATION`. -/
theorem gather_callback_amended_witness :
    (twilio_gather_callback c9Brain c9DocInit c9Form).2.stage
      = some "NEGOTIATION" :=
  ((gather_callback_amended c9Brain c9DocInit c9Form).2.1 (by decide)).1

end DesiYatra
